import Mathlib

/-!
Verification of the PTT-TBI repository's profiling / schema-inference engine
(`src/backend/app.py`) and data-model version cloner
(`src/backend/app/services/data_model_service.py`), as a shallow embedding.

Conventions of the embedding:
* machine integers are `Int`/`Nat`; exact statistics are computed in `ℚ`
  (the source stores float64 values; every number evaluated by a theorem
  below is exactly representable, so no rounding model is needed);
* pandas `NaN` / missing cells are `Option.none`;
* database identities are `Nat`; fallible code returns `Except String`.
-/

namespace PTT

/-! ### Raw tabular cells (the loader boundary, spec section 4.1)

A raw cell, as handed over by the external tabular loader, is either an
explicit missing marker, an integer literal, a non-integral numeric
literal, or other text.  This mirrors the per-cell lexing that
`pd.read_csv` / `read_json` / `read_excel` perform before column dtype
coercion. -/

inductive Raw
  | missing
  | intv (n : Int)
  | floatv (q : ℚ)
  | strv (s : String)
  deriving DecidableEq, Repr

def Raw.isMissing : Raw → Bool
  | .missing => true
  | _ => false

def Raw.isInt : Raw → Bool
  | .intv _ => true
  | _ => false

def Raw.isNumeric : Raw → Bool
  | .intv _ => true
  | .floatv _ => true
  | _ => false

/-- Python str() of a float64 value.  Integral floats print with a trailing
".0" exactly as in Python; other finite decimals print their (shortest)
exact decimal expansion.  Values whose denominator divides no power of 10
fall back to a fraction rendering; no theorem below evaluates the function
there (float64 columns in the claims hold integral values only). -/
def pyFloatStr (q : ℚ) : String :=
  let sign := if q < 0 then "-" else ""
  let n := q.num.natAbs
  let d := q.den
  if d = 1 then sign ++ toString n ++ ".0"
  else
    match (List.range 40).find? (fun k => 10 ^ k % d = 0) with
    | some k =>
        let scaled := n * (10 ^ k / d)
        let ip := scaled / 10 ^ k
        let fp := scaled % 10 ^ k
        let fpStr := toString fp
        let pad := String.mk (List.replicate (k - fpStr.length) '0')
        sign ++ toString ip ++ "." ++ pad ++ fpStr
    | none => sign ++ toString n ++ "/" ++ toString d

/-! ### Loaded columns (pandas Series with an inferred dtype)

`src/backend/app.py` never inspects raw cells itself: it receives a
`DataFrame` whose columns were already coerced by pandas.  A loaded column
is one of the four dtype shapes the code branches on
(`pd.api.types.is_integer_dtype` / `is_float_dtype` / `is_datetime64_dtype`
/ fallthrough = object). -/

inductive Series
  | ints (xs : List Int)                -- int64: no missing cells possible
  | floats (xs : List (Option ℚ))       -- float64: `none` is NaN
  | dts (xs : List (Option Int))        -- datetime64[ns]: `none` is NaT
  | strs (xs : List (Option String))    -- object: `none` is NaN
  deriving DecidableEq, Repr

def toFloatCell : Raw → Option ℚ
  | .intv n => some (n : ℚ)
  | .floatv q => some q
  | _ => none

/-- Text rendering used when a mixed column stays object dtype.  (The
original cell text of numeric-looking entries is not kept by `Raw`; no
claim exercises mixed numeric/text columns.) -/
def toStrCell : Raw → Option String
  | .missing => none
  | .strv s => some s
  | .intv n => some (toString n)
  | .floatv q => some (pyFloatStr q)

/-- pandas' default column dtype coercion, as performed by
`pd.read_csv`/`read_json`/`read_excel` (src/backend/app.py lines 190-195):
an all-integer column with no missing cell becomes int64; a column of
numbers that contains a missing cell or a non-integral number becomes
float64 (missing cells become NaN; in particular an all-missing nonempty
column is float64); anything else — including an empty column — stays
object.  Dates are not parsed by default, so datetime64 never arises on
this path. -/
def loadColumn (raw : List Raw) : Series :=
  if raw ≠ [] ∧ raw.all Raw.isInt then
    .ints (raw.filterMap (fun c => match c with | .intv n => some n | _ => none))
  else if raw ≠ [] ∧ raw.all (fun c => c.isMissing || c.isNumeric) then
    .floats (raw.map toFloatCell)
  else
    .strs (raw.map toStrCell)

/-- A loaded DataFrame: `len(df)` and the ordered named columns.  The
loader guarantees rectangular data, so `nrows` is the common column
length. -/
structure Df where
  nrows : Nat
  columns : List (String × Series)
  deriving DecidableEq, Repr

def loadDf (cols : List (String × List Raw)) : Df :=
  { nrows := ((cols.head?).map (fun c => c.2.length)).getD 0,
    columns := cols.map (fun c => (c.1, loadColumn c.2)) }

/-! ### pandas Series operations used by the inferencer

Each helper is the translation of the pandas call named in its comment,
branching on the column dtype exactly as pandas does. -/

/-- The data-type label assigned by the dtype dispatch of
`infer_schema` (src/backend/app.py lines 77-85) and `get_profiling_data`
(lines 121-129). -/
def dtypeName : Series → String
  | .ints _ => "INTEGER"
  | .floats _ => "FLOAT"
  | .dts _ => "TIMESTAMP"
  | .strs _ => "VARCHAR"

/-- `df[col].isnull().any()` -/
def seriesIsnullAny : Series → Bool
  | .ints _ => false
  | .floats xs => xs.any (fun c => c.isNone)
  | .dts xs => xs.any (fun c => c.isNone)
  | .strs xs => xs.any (fun c => c.isNone)

/-- `df[col].isnull().all()` (vacuously true on an empty column) -/
def seriesIsnullAll : Series → Bool
  | .ints xs => xs.isEmpty
  | .floats xs => xs.all (fun c => c.isNone)
  | .dts xs => xs.all (fun c => c.isNone)
  | .strs xs => xs.all (fun c => c.isNone)

/-- `df[col].count()`: number of non-missing cells -/
def seriesCount : Series → Nat
  | .ints xs => xs.length
  | .floats xs => (xs.filterMap id).length
  | .dts xs => (xs.filterMap id).length
  | .strs xs => (xs.filterMap id).length

/-- `df[col].isnull().sum()`: number of missing cells -/
def seriesMissing : Series → Nat
  | .ints _ => 0
  | .floats xs => (xs.filter (fun c => c.isNone)).length
  | .dts xs => (xs.filter (fun c => c.isNone)).length
  | .strs xs => (xs.filter (fun c => c.isNone)).length

/-- `df[col].nunique()`: number of distinct non-missing values -/
def seriesNunique : Series → Nat
  | .ints xs => xs.dedup.length
  | .floats xs => (xs.filterMap id).dedup.length
  | .dts xs => (xs.filterMap id).dedup.length
  | .strs xs => (xs.filterMap id).dedup.length

def listMin {α} [Min α] [Inhabited α] : List α → α
  | [] => default
  | x :: r => r.foldl min x

def listMax {α} [Max α] [Inhabited α] : List α → α
  | [] => default
  | x :: r => r.foldl max x

/-- `str(df[col].min())`: stringified column minimum (NaN cells skipped;
only evaluated by the source under `not df[col].isnull().all()`).
Timestamps are kept as an abstract integer rendering — no claim
exercises the TIMESTAMP branch. -/
def seriesMinStr : Series → String
  | .ints xs => toString (listMin xs)
  | .floats xs => pyFloatStr (listMin (xs.filterMap id))
  | .dts xs => toString (listMin (xs.filterMap id))
  | .strs xs => listMin (xs.filterMap id)

/-- `str(df[col].max())` -/
def seriesMaxStr : Series → String
  | .ints xs => toString (listMax xs)
  | .floats xs => pyFloatStr (listMax (xs.filterMap id))
  | .dts xs => toString (listMax (xs.filterMap id))
  | .strs xs => listMax (xs.filterMap id)

def listSumQ (xs : List ℚ) : ℚ := xs.foldl (· + ·) 0

/-- `df[col].mean()`: arithmetic mean of the non-missing cells, exact in
`ℚ`.  The source reads it only on the INTEGER/FLOAT branch; the other two
cases are never consulted. -/
def seriesMean : Series → ℚ
  | .ints xs => listSumQ (xs.map (fun n => (n : ℚ))) / xs.length
  | .floats xs =>
      let vals := xs.filterMap id
      listSumQ vals / vals.length
  | .dts _ => 0
  | .strs _ => 0

/-! ### `value_counts().head(5)` (top values of an object column)

pandas counts occurrences per distinct value in a hashtable and, with
the default `sort=True`, orders the entries by count descending via a
numpy argsort.  The embedding fixes one canonical deterministic order:
distinct values in first-occurrence order, then a stable insertion sort
by count descending.  The libraries do not pin this order down in
general — the hashtable's key iteration order is unspecified (for `str`
keys it can even vary between processes under hash randomization), and
`argsort(kind="quicksort")` is unstable beyond its small-array
insertion-sort cutoff — so the order of equal-count entries in the model
is a canonical choice, not a guarantee of the program; no theorem below
asserts the program's tie order.  The count values themselves, the
descending count order, and the head-5 truncation are
order-independent. -/

/-- Distinct non-missing values in first-occurrence order. -/
def firstUniques {α} [DecidableEq α] : List (Option α) → List α
  | [] => []
  | none :: rest => firstUniques rest
  | some v :: rest => v :: (firstUniques rest).erase v

/-- Each distinct value paired with its occurrence count, in
first-occurrence order. -/
def countsList {α} [DecidableEq α] (xs : List (Option α)) : List (α × Nat) :=
  (firstUniques xs).map (fun v => (v, xs.count (some v)))

/-- Insert into a count-descending list, before the first entry of equal
or smaller count (stable). -/
def insertByCount {α} (x : α × Nat) : List (α × Nat) → List (α × Nat)
  | [] => [x]
  | y :: ys => if x.2 < y.2 then y :: insertByCount x ys else x :: y :: ys

def sortByCountDesc {α} : List (α × Nat) → List (α × Nat)
  | [] => []
  | x :: xs => insertByCount x (sortByCountDesc xs)

/-- `df[col].value_counts()` (dropna=True): counts sorted descending;
equal-count entries are placed in first-occurrence order, the model's
canonical choice (see the section comment). -/
def valueCounts {α} [DecidableEq α] (xs : List (Option α)) : List (α × Nat) :=
  sortByCountDesc (countsList xs)

/-- `df[col].value_counts().head(5).to_dict()` followed by the
key-stringification comprehension of src/backend/app.py line 148. -/
def valueCountsTop5 {α} [DecidableEq α] (xs : List (Option α)) (sh : α → String) :
    List (String × Nat) :=
  ((valueCounts xs).take 5).map (fun p => (sh p.1, p.2))

def seriesTopValues : Series → List (String × Nat)
  | .ints xs => valueCountsTop5 (xs.map some) toString
  | .floats xs => valueCountsTop5 xs pyFloatStr
  | .dts xs => valueCountsTop5 xs toString
  | .strs xs => valueCountsTop5 xs (fun s => s)

/-! ### Python round(x, 1) -/

/-- Round to the nearest integer, ties to even (Python banker rounding),
applied to the exact rational value.  The source applies `round` to the
float64 value of the same expression; that agrees with rounding the
exact rational except when the exact scaled value lies within float64
representation error of a `.5` tie boundary (e.g. an exact percentage of
0.15, whose nearest float64 falls just below the tie) — a float-level
caveat outside this exact-arithmetic embedding.  Every value a witness
below rounds is an exact short decimal, where the two agree; values with
at most one decimal digit are returned unchanged by both (see the final
clause of the completeness/uniqueness theorem). -/
def roundHalfEven (q : ℚ) : Int :=
  let f : Int := ⌊q⌋
  let frac : ℚ := q - f
  if frac < 1 / 2 then f
  else if 1 / 2 < frac then f + 1
  else if f % 2 = 0 then f else f + 1

/-- Python `round(x, 1)` -/
def roundTo1 (q : ℚ) : ℚ := (roundHalfEven (q * 10) : ℚ) / 10

/-! ### `infer_schema` (src/backend/app.py lines 67-108) -/

/-- One entry of the schema list built per column.  `avg_value` is kept
exact in `ℚ` (the source stores the float64 mean). -/
structure SchemaCol where
  name : String
  nullable : Bool
  data_type : String
  unique_values : Option Nat
  min_value : Option String
  max_value : Option String
  avg_value : Option ℚ
  missing_count : Nat
  deriving DecidableEq, Repr

def infer_schemaCol (name : String) (s : Series) : SchemaCol :=
  let data_type := dtypeName s
  { name := name,
    nullable := seriesIsnullAny s,
    data_type := data_type,
    -- nunique() never returns NaN, so the `pd.isna` guard always takes
    -- the `int(unique_count)` side
    unique_values := some (seriesNunique s),
    min_value :=
      if data_type = "INTEGER" ∨ data_type = "FLOAT" ∨ data_type = "TIMESTAMP" then
        (if seriesIsnullAll s then none else some (seriesMinStr s))
      else none,
    max_value :=
      if data_type = "INTEGER" ∨ data_type = "FLOAT" ∨ data_type = "TIMESTAMP" then
        (if seriesIsnullAll s then none else some (seriesMaxStr s))
      else none,
    avg_value :=
      if data_type = "INTEGER" ∨ data_type = "FLOAT" then
        (if seriesIsnullAll s then none else some (seriesMean s))
      else none,
    missing_count := seriesMissing s }

def infer_schema (df : Df) : List SchemaCol :=
  df.columns.map (fun c => infer_schemaCol c.1 c.2)

/-! ### `get_profiling_data` (src/backend/app.py lines 110-152) -/

/-- The per-column record of the profile.  The source builds a dict whose
keys vary by branch: `none` in `min`/`max`/`top_values` models the key
being absent; `some none` models a present key holding `None`. -/
structure ColProfile where
  type : String
  completeness : ℚ
  uniqueness : ℚ
  min : Option (Option String)
  max : Option (Option String)
  top_values : Option (List (String × Nat))
  deriving DecidableEq, Repr

def profileColumn (totalRows : Nat) (s : Series) : ColProfile :=
  let t := dtypeName s
  { type := t,
    completeness :=
      if totalRows > 0 then roundTo1 (((seriesCount s : ℚ) / (totalRows : ℚ)) * 100)
      else 100,
    uniqueness :=
      if totalRows > 0 then roundTo1 (((seriesNunique s : ℚ) / (totalRows : ℚ)) * 100)
      else 100,
    min :=
      if t = "INTEGER" ∨ t = "FLOAT" ∨ t = "TIMESTAMP" then
        some (if seriesIsnullAll s then none else some (seriesMinStr s))
      else none,
    max :=
      if t = "INTEGER" ∨ t = "FLOAT" ∨ t = "TIMESTAMP" then
        some (if seriesIsnullAll s then none else some (seriesMaxStr s))
      else none,
    top_values :=
      if t = "INTEGER" ∨ t = "FLOAT" ∨ t = "TIMESTAMP" then none
      else if seriesIsnullAll s then none
      else some (seriesTopValues s) }

structure Profile where
  row_count : Nat
  column_count : Nat
  columns : List (String × ColProfile)
  deriving DecidableEq, Repr

def get_profiling_data (df : Df) : Profile :=
  { row_count := df.nrows,
    column_count := df.columns.length,
    columns := df.columns.map (fun c => (c.1, profileColumn df.nrows c.2)) }

/-! ### `_increment_version`
(src/backend/app/services/data_model_service.py lines 640-665) -/

/-- Split a character list at every dot.  Since a `\d+` group cannot
contain a dot, the regex `^(\d+)\.(\d+)\.(\d+)$` matches a string exactly
when this split yields three nonempty all-digit groups. -/
def splitDots : List Char → List (List Char)
  | [] => [[]]
  | c :: rest =>
      match splitDots rest with
      | [] => [[]]
      | g :: gs => if c = '.' then [] :: g :: gs else (c :: g) :: gs

def decValue (cs : List Char) : Nat :=
  cs.foldl (fun a c => 10 * a + (c.toNat - 48)) 0

def allDigits (cs : List Char) : Bool := cs.all Char.isDigit

/-- `re.match(r"^(\d+)\.(\d+)\.(\d+)$", s)` with the three groups parsed
by `int`.  In Python's `re`, `$` matches at the end of the string or just
before one newline at the end, so the regex also accepts a single
trailing `"\n"` (e.g. `"1.2.3\n"` matches with groups 1, 2, 3); the
parse therefore strips one trailing newline before splitting at the
dots.  Digits are modelled as ASCII `0-9`: on ASCII inputs this parse
accepts exactly the strings the regex matches, while Python's `\d` would
additionally accept non-ASCII Unicode decimal digits, which are outside
the model (the claim theorem's fallback clause is scoped to ASCII inputs
accordingly). -/
def semverParse (s : String) : Option (Nat × Nat × Nat) :=
  let cs := s.toList
  let core := if cs.getLast? = some '\n' then cs.dropLast else cs
  match splitDots core with
  | [a, b, c] =>
      if a ≠ [] ∧ b ≠ [] ∧ c ≠ [] ∧ allDigits a ∧ allDigits b ∧ allDigits c then
        some (decValue a, decValue b, decValue c)
      else none
  | _ => none

/-- The whitespace characters `int(str)` strips.  Within ASCII this set
(tab, newline, vertical tab, form feed, carriage return, space) is
exactly what CPython strips; the non-ASCII spaces it also strips
(U+0085, U+00A0, ...) are outside the model. -/
def isPySpace (c : Char) : Bool :=
  c = ' ' || c = '\t' || c = '\n' || c = '\r' || c = '\x0b' || c = '\x0c'

/-- Digit run with optional single underscores between digits
(the grammar accepted by Python `int` after sign and whitespace). -/
def pyDigitsCore (acc : Nat) : List Char → Option Nat
  | [] => some acc
  | '_' :: c :: cs =>
      if c.isDigit then pyDigitsCore (10 * acc + (c.toNat - 48)) cs else none
  | c :: cs =>
      if c.isDigit then pyDigitsCore (10 * acc + (c.toNat - 48)) cs else none

def pyIntDigits : List Char → Option Nat
  | [] => none
  | c :: cs => if c.isDigit then pyDigitsCore (c.toNat - 48) cs else none

/-- `int(s)` for a `str` argument: strips surrounding whitespace, accepts
an optional sign and digits with single interior underscores; `none`
models the `ValueError` path.  Digits are modelled as ASCII `0-9`: on
ASCII inputs this is exactly `int()`; Python additionally accepts
non-ASCII Unicode decimal digits, which are outside the model (the claim
theorem's fallback clause is scoped to ASCII inputs accordingly). -/
def pyStrToInt (s : String) : Option Int :=
  let cs := s.toList.dropWhile isPySpace
  let cs := (cs.reverse.dropWhile isPySpace).reverse
  match cs with
  | '+' :: rest => (pyIntDigits rest).map (fun n => (n : Int))
  | '-' :: rest => (pyIntDigits rest).map (fun n => -(n : Int))
  | rest => (pyIntDigits rest).map (fun n => (n : Int))

/-- `_increment_version(current_version)`: `not current_version` is true
for both `None` and the empty string; otherwise semantic-version match,
then integer parse, then the `"-new"` fallback. -/
def _increment_version : Option String → String
  | none => "1.0.0"
  | some s =>
      if s = "" then "1.0.0"
      else
        match semverParse s with
        | some (major, minor, patch) =>
            toString major ++ "." ++ toString minor ++ "." ++ toString (patch + 1)
        | none =>
            match pyStrToInt s with
            | some n => toString (n + 1)
            | none => s ++ "-new"

/-! ### The data-model graph (src/backend/app/models/data_model.py)

Scalar columns are carried verbatim; identities are `Nat`; nullable
foreign keys are `Option Nat`; opaque JSON / enum / text payloads are
`String`.  The DB-managed `created_at`/`updated_at` timestamps of the
shared model base are bookkeeping outside the scalar-copy contract and
are not modelled. -/

structure DataModel where
  id : Nat
  name : String
  description : String
  model_type : String
  version : Option String
  is_latest_version : Bool
  parent_model_id : Option Nat
  database_dialect : String
  layout_data : String
  tags : List String
  metadata : String
  project_id : Nat
  owner_id : Nat
  deriving DecidableEq, Repr

structure Entity where
  id : Nat
  data_model_id : Nat
  name : String
  description : String
  schema_name : String
  table_name : String
  is_view : Bool
  position_x : Int
  position_y : Int
  color : String
  metadata : String
  deriving DecidableEq, Repr

structure Attribute where
  id : Nat
  entity_id : Nat
  name : String
  description : String
  data_type : String
  length : Option Int
  precision : Option Int
  scale : Option Int
  is_nullable : Bool
  is_primary_key : Bool
  is_unique : Bool
  default_value : String
  check_constraint : String
  position : Option Int
  metadata : String
  deriving DecidableEq, Repr

structure Relationship where
  id : Nat
  data_model_id : Nat
  name : String
  description : String
  source_entity_id : Nat
  target_entity_id : Nat
  relationship_type : String
  identifying : Bool
  cardinality_source : String
  cardinality_target : String
  verbalize_source_to_target : String
  verbalize_target_to_source : String
  metadata : String
  deriving DecidableEq, Repr

/-- The `relationship_attributes` mapping row (the ORM class is named
`RelationshipAttribute`, data_model.py lines 189-201). -/
structure RelationshipAttribute where
  id : Nat
  relationship_id : Nat
  source_attribute_id : Nat
  target_attribute_id : Nat
  deriving DecidableEq, Repr

/-- A source model together with its ORM collections, in relation order:
`model.entities` with each entity's `attributes`, and
`model.relationships` with each relationship's `attribute_mappings`. -/
structure ModelGraph where
  model : DataModel
  entities : List (Entity × List Attribute)
  relationships : List (Relationship × List RelationshipAttribute)
  deriving DecidableEq, Repr

/-! ### `create_version`
(src/backend/app/services/data_model_service.py lines 171-295)

Fresh identities are modelled by a counter: each `db.add`/`db.flush`
assigns the next value.  Python resolves a global name only when the
line that mentions it executes, so the constructor name
`RelationshipAttributeMapping` on line 285 is looked up against the
names bound at module scope; the lookup fails (the imports on lines 1-11
bring in `DataModel`, `Entity`, `Attribute`, `Relationship`, `ModelType`
and the schema/typing names, and the module defines only its own
functions), raising `NameError` and aborting the still-uncommitted
transaction. -/

/-- Names bound at module scope in data_model_service.py: the imports of
lines 1-11 and the module's own function definitions. -/
def dataModelServiceNames : List String :=
  ["Optional", "List", "Dict", "Any", "Set", "Tuple", "UUID", "datetime", "Session",
   "HTTPException", "status", "uuid", "re",
   "DataModel", "Entity", "Attribute", "Relationship", "ModelType",
   "DataModelCreate", "DataModelUpdate", "EntityCreate", "EntityUpdate",
   "AttributeCreate", "AttributeUpdate", "RelationshipCreate", "RelationshipUpdate",
   "DDLGenerationOptions", "GeneratedDDL", "project_service",
   "get_data_model_by_id", "get_data_models", "create_data_model", "update_data_model",
   "delete_data_model", "create_version", "get_entity_by_id", "create_entity",
   "update_entity", "delete_entity", "get_attribute_by_id", "create_attribute",
   "update_attribute", "delete_attribute", "get_relationship_by_id",
   "create_relationship", "update_relationship", "delete_relationship",
   "_increment_version"]

def boundInDataModelService (n : String) : Bool := dataModelServiceNames.contains n

def nameErrorRAM : String :=
  "NameError: name RelationshipAttributeMapping is not defined"

structure EntCopyState where
  newEntities : List Entity
  newAttributes : List Attribute
  entMap : List (Nat × Nat)
  attrMap : List (Nat × Nat)
  next : Nat
  deriving DecidableEq, Repr

/-- The inner attribute loop of lines 232-252: each new `Attribute`
copies the listed scalar fields under the new entity, gets a fresh id,
and is recorded in `attribute_id_map`. -/
def copyAttributes (newEntityId : Nat) (next : Nat) (attrMap : List (Nat × Nat)) :
    List Attribute → List Attribute × List (Nat × Nat) × Nat
  | [] => ([], attrMap, next)
  | a :: rest =>
      let newAttr : Attribute :=
        { id := next, entity_id := newEntityId, name := a.name,
          description := a.description, data_type := a.data_type,
          length := a.length, precision := a.precision, scale := a.scale,
          is_nullable := a.is_nullable, is_primary_key := a.is_primary_key,
          is_unique := a.is_unique, default_value := a.default_value,
          check_constraint := a.check_constraint, position := a.position,
          metadata := a.metadata }
      let rec_ := copyAttributes newEntityId (next + 1) (attrMap ++ [(a.id, next)]) rest
      (newAttr :: rec_.1, rec_.2.1, rec_.2.2)

/-- The entity loop of lines 213-252. -/
def copyEntities (newModelId : Nat) (next : Nat) :
    List (Entity × List Attribute) → EntCopyState
  | [] => { newEntities := [], newAttributes := [], entMap := [], attrMap := [], next := next }
  | (e, attrs) :: rest =>
      let newEntity : Entity :=
        { id := next, data_model_id := newModelId, name := e.name,
          description := e.description, schema_name := e.schema_name,
          table_name := e.table_name, is_view := e.is_view,
          position_x := e.position_x, position_y := e.position_y,
          color := e.color, metadata := e.metadata }
      let a := copyAttributes newEntity.id (next + 1) [] attrs
      let st := copyEntities newModelId a.2.2 rest
      { newEntities := newEntity :: st.newEntities,
        newAttributes := a.1 ++ st.newAttributes,
        entMap := (e.id, next) :: st.entMap,
        attrMap := a.2.1 ++ st.attrMap,
        next := st.next }

/-- The attribute-mapping loop of lines 279-290: mappings whose source or
target attribute is absent from the map are skipped (lines 281-283)
before line 285 evaluates the unbound constructor name. -/
def copyMappings (attrMap : List (Nat × Nat)) (newRelId : Nat) (next : Nat) :
    List RelationshipAttribute → Except String (List RelationshipAttribute × Nat)
  | [] => .ok ([], next)
  | m :: rest =>
      match attrMap.lookup m.source_attribute_id, attrMap.lookup m.target_attribute_id with
      | some s, some t =>
          if boundInDataModelService "RelationshipAttributeMapping" then
            -- the branch Python would take if the name resolved
            match copyMappings attrMap newRelId (next + 1) rest with
            | .error e => .error e
            | .ok (ms, n) =>
                .ok ({ id := next, relationship_id := newRelId,
                       source_attribute_id := s, target_attribute_id := t } :: ms, n)
          else .error nameErrorRAM
      | _, _ => copyMappings attrMap newRelId next rest

/-- The relationship loop of lines 255-290: relationships with an
unmapped endpoint are skipped (lines 256-259). -/
def copyRelationships (entMap attrMap : List (Nat × Nat)) (newModelId : Nat) (next : Nat) :
    List (Relationship × List RelationshipAttribute) →
    Except String (List Relationship × List RelationshipAttribute × Nat)
  | [] => .ok ([], [], next)
  | (r, ms) :: rest =>
      match entMap.lookup r.source_entity_id, entMap.lookup r.target_entity_id with
      | some s, some t =>
          let newRel : Relationship :=
            { id := next, data_model_id := newModelId, name := r.name,
              description := r.description, source_entity_id := s,
              target_entity_id := t, relationship_type := r.relationship_type,
              identifying := r.identifying, cardinality_source := r.cardinality_source,
              cardinality_target := r.cardinality_target,
              verbalize_source_to_target := r.verbalize_source_to_target,
              verbalize_target_to_source := r.verbalize_target_to_source,
              metadata := r.metadata }
          match copyMappings attrMap newRel.id (next + 1) ms with
          | .error e => .error e
          | .ok (newMs, n1) =>
              match copyRelationships entMap attrMap newModelId n1 rest with
              | .error e => .error e
              | .ok (rs, allMs, n2) => .ok (newRel :: rs, newMs ++ allMs, n2)
      | _, _ => copyRelationships entMap attrMap newModelId next rest

/-- Everything `db.commit()` would make visible on success. -/
structure CloneResult where
  newModel : DataModel
  sourceModel : DataModel
  newEntities : List Entity
  newAttributes : List Attribute
  newRelationships : List Relationship
  newMappings : List RelationshipAttribute
  nextId : Nat
  deriving DecidableEq, Repr

instance {e a : Type} [DecidableEq e] [DecidableEq a] : DecidableEq (Except e a) :=
  fun x y =>
    match x, y with
    | .error u, .error v =>
        if h : u = v then .isTrue (congrArg Except.error h)
        else .isFalse (fun hc => h (Except.error.inj hc))
    | .ok u, .ok v =>
        if h : u = v then .isTrue (congrArg Except.ok h)
        else .isFalse (fun hc => h (Except.ok.inj hc))
    | .error _, .ok _ => .isFalse (fun hc => Except.noConfusion hc)
    | .ok _, .error _ => .isFalse (fun hc => Except.noConfusion hc)

/-- `create_version(db, model_id, user_id)` after the source model has
been fetched: `fresh` is the next unused identity. -/
def create_version (g : ModelGraph) (user_id : Nat) (fresh : Nat) :
    Except String CloneResult :=
  let newModel : DataModel :=
    { id := fresh,
      name := g.model.name,
      description := g.model.description,
      model_type := g.model.model_type,
      project_id := g.model.project_id,
      owner_id := user_id,
      parent_model_id := some g.model.id,
      version := some (_increment_version g.model.version),
      database_dialect := g.model.database_dialect,
      layout_data := g.model.layout_data,
      metadata := g.model.metadata,
      tags := g.model.tags,
      is_latest_version := true }
  let src : DataModel := { g.model with is_latest_version := false }
  let ec := copyEntities newModel.id (fresh + 1) g.entities
  match copyRelationships ec.entMap ec.attrMap newModel.id ec.next g.relationships with
  | .error e => .error e
  | .ok (rels, maps, n) =>
      .ok { newModel := newModel, sourceModel := src,
            newEntities := ec.newEntities, newAttributes := ec.newAttributes,
            newRelationships := rels, newMappings := maps, nextId := n }

/-! ### `import_dataset` (src/backend/app.py lines 165-240)

The upload file handling (save, size, uuid) happens outside the tabular
core; the parse step `pd.read_csv`/`read_json`/`read_excel` is passed in
as its outcome (`Except.error` models the exception pandas raises on a
malformed source).  On the exception path the handler deletes the saved
file and returns a 500 response before any database statement runs, so
the database state is returned unchanged. -/

def ALLOWED_EXTENSIONS : List String := ["csv", "json", "xlsx", "xls"]

/-- `filename.rsplit('.', 1)[1].lower()`: the text after the last dot,
lower-cased (on the split of the character list at dots, computed by
`splitDots`). -/
def fileExt (filename : String) : String :=
  String.mk (((splitDots filename.toList).getLastD []).map Char.toLower)

def upperStr (s : String) : String := String.mk (s.toList.map Char.toUpper)

/-- `'.' in filename and filename.rsplit('.', 1)[1].lower() in
ALLOWED_EXTENSIONS` -/
def allowed_file (filename : String) : Bool :=
  filename.toList.contains '.' && ALLOWED_EXTENSIONS.contains (fileExt filename)

/-- One row of the `datasets` table (upload path, file size and timestamp
are plumbing outside the model). -/
structure DatasetRow where
  id : String
  name : String
  file_type : String
  size : Nat
  schema_json : List SchemaCol
  deriving DecidableEq, Repr

/-- One row of the `columns` table. -/
structure ColumnRow where
  dataset_id : String
  name : String
  data_type : String
  nullable : Bool
  unique_values : Option Nat
  min_value : Option String
  max_value : Option String
  avg_value : Option ℚ
  missing_count : Nat
  deriving DecidableEq, Repr

structure DbState where
  datasets : List DatasetRow
  columns : List ColumnRow
  deriving DecidableEq, Repr

inductive ImportResponse
  | ok (id name file_type : String) (size rowCount colCount : Nat)
  | err (code : Nat) (msg : String)
  deriving DecidableEq, Repr

def import_dataset (st : DbState) (datasetId filename : String) (size : Nat)
    (loadResult : Except String Df) : DbState × ImportResponse :=
  if filename = "" then (st, .err 400 "No selected file")
  else if allowed_file filename then
    match loadResult with
    | .error e =>
        -- the saved file is removed again; no database statement has run
        (st, .err 500 e)
    | .ok df =>
        let schema := infer_schema df
        -- line 201 also computes get_profiling_data(df); the value is
        -- never used or persisted
        let ext := fileExt filename
        let row : DatasetRow :=
          { id := datasetId, name := filename, file_type := upperStr ext,
            size := size, schema_json := schema }
        let colRows := schema.map (fun c =>
          ({ dataset_id := datasetId, name := c.name, data_type := c.data_type,
             nullable := c.nullable, unique_values := c.unique_values,
             min_value := c.min_value, max_value := c.max_value,
             avg_value := c.avg_value, missing_count := c.missing_count } : ColumnRow))
        ({ datasets := st.datasets ++ [row], columns := st.columns ++ colRows },
         .ok datasetId filename (upperStr ext) size df.nrows df.columns.length)
  else (st, .err 400 "File type not allowed")

/-! ### Byte serialization of a profile (for the determinism claim) -/

def ratStr (q : ℚ) : String := toString q.num ++ "/" ++ toString q.den

def optStr : Option String → String
  | none => "null"
  | some s => s

def topValuesStr (l : List (String × Nat)) : String :=
  l.foldl (fun acc p => acc ++ p.1 ++ ":" ++ toString p.2 ++ ",") ""

def colProfileStr (c : ColProfile) : String :=
  "type=" ++ c.type ++ ";completeness=" ++ ratStr c.completeness ++
    ";uniqueness=" ++ ratStr c.uniqueness ++
    ";min=" ++ (match c.min with | none => "absent" | some v => optStr v) ++
    ";max=" ++ (match c.max with | none => "absent" | some v => optStr v) ++
    ";top_values=" ++ (match c.top_values with | none => "absent" | some l => topValuesStr l)

/-- A canonical byte rendering of the profile, preserving column order
and the insertion order of `top_values` entries. -/
def profileStr (p : Profile) : String :=
  "row_count=" ++ toString p.row_count ++ ";column_count=" ++ toString p.column_count ++
    ";" ++ p.columns.foldl (fun acc c => acc ++ c.1 ++ "=" ++ colProfileStr c.2 ++ ";") ""

/-! ### Concrete inputs used by the claim theorems -/

/-- The spec's cloning test model: 2 entities, 3 attributes, 1
relationship carrying 2 attribute mappings. -/
def c1Model : DataModel :=
  { id := 1, name := "orders", description := "d", model_type := "logical",
    version := some "1.0.0", is_latest_version := true, parent_model_id := none,
    database_dialect := "postgresql", layout_data := "ld", tags := ["t"],
    metadata := "md", project_id := 2, owner_id := 3 }

def c1E1 : Entity :=
  { id := 11, data_model_id := 1, name := "customer", description := "",
    schema_name := "public", table_name := "customer", is_view := false,
    position_x := 0, position_y := 0, color := "blue", metadata := "" }

def c1E2 : Entity :=
  { id := 12, data_model_id := 1, name := "order", description := "",
    schema_name := "public", table_name := "order", is_view := false,
    position_x := 10, position_y := 10, color := "red", metadata := "" }

def c1A1 : Attribute :=
  { id := 21, entity_id := 11, name := "cid", description := "", data_type := "INTEGER",
    length := none, precision := none, scale := none, is_nullable := false,
    is_primary_key := true, is_unique := true, default_value := "",
    check_constraint := "", position := some 0, metadata := "" }

def c1A2 : Attribute :=
  { id := 22, entity_id := 11, name := "cname", description := "", data_type := "VARCHAR",
    length := some 80, precision := none, scale := none, is_nullable := true,
    is_primary_key := false, is_unique := false, default_value := "",
    check_constraint := "", position := some 1, metadata := "" }

def c1A3 : Attribute :=
  { id := 23, entity_id := 12, name := "customer_id", description := "",
    data_type := "INTEGER", length := none, precision := none, scale := none,
    is_nullable := false, is_primary_key := false, is_unique := false,
    default_value := "", check_constraint := "", position := some 0, metadata := "" }

def c1Rel : Relationship :=
  { id := 31, data_model_id := 1, name := "places", description := "",
    source_entity_id := 11, target_entity_id := 12, relationship_type := "one_to_many",
    identifying := false, cardinality_source := "1", cardinality_target := "0..*",
    verbalize_source_to_target := "", verbalize_target_to_source := "", metadata := "" }

def c1M1 : RelationshipAttribute :=
  { id := 41, relationship_id := 31, source_attribute_id := 21, target_attribute_id := 23 }

def c1M2 : RelationshipAttribute :=
  { id := 42, relationship_id := 31, source_attribute_id := 22, target_attribute_id := 23 }

def c1Graph : ModelGraph :=
  { model := c1Model,
    entities := [(c1E1, [c1A1, c1A2]), (c1E2, [c1A3])],
    relationships := [(c1Rel, [c1M1, c1M2])] }

/-- The spec's integer-with-null test column `[1, 2, 2, null]`. -/
def c2raw : List Raw := [.intv 1, .intv 2, .intv 2, .missing]

def c2df : Df := loadDf [("col", c2raw)]

def c3raw : List Raw := [.missing, .missing]

/-- A source model owned by user 1; version creation will be requested by
user 2. -/
def c7Model : DataModel :=
  { id := 1, name := "m", description := "d", model_type := "logical",
    version := some "1.0.0", is_latest_version := true, parent_model_id := none,
    database_dialect := "postgresql", layout_data := "ld", tags := ["t"],
    metadata := "md", project_id := 2, owner_id := 1 }

def c7Graph : ModelGraph := { model := c7Model, entities := [], relationships := [] }

/-- The result of `create_version c7Graph 2 100`, written out. -/
def c7Result : CloneResult :=
  { newModel :=
      { id := 100, name := "m", description := "d", model_type := "logical",
        version := some "1.0.1", is_latest_version := true, parent_model_id := some 1,
        database_dialect := "postgresql", layout_data := "ld", tags := ["t"],
        metadata := "md", project_id := 2, owner_id := 2 },
    sourceModel := { c7Model with is_latest_version := false },
    newEntities := [], newAttributes := [], newRelationships := [], newMappings := [],
    nextId := 101 }

def c8Db : DbState :=
  { datasets := [{ id := "d0", name := "base.csv", file_type := "CSV", size := 10,
                   schema_json := [] }],
    columns := [] }

def c5df : Df := loadDf [("w5", [.intv 4])]

def c9df : Df := loadDf [("n", [.intv 1, .intv 2])]

/-! ## Helper lemmas about `value_counts` -/

theorem mem_firstUniques {α} [DecidableEq α] {v : α} {xs : List (Option α)} :
    v ∈ firstUniques xs ↔ some v ∈ xs := by
  induction xs with
  | nil => simp [firstUniques]
  | cons c rest ih =>
      cases c with
      | none => simpa [firstUniques] using ih
      | some w =>
          by_cases hvw : v = w
          · subst hvw; simp [firstUniques]
          · simp [firstUniques, List.mem_erase_of_ne hvw, ih, hvw]

theorem nodup_firstUniques {α} [DecidableEq α] {xs : List (Option α)} :
    (firstUniques xs).Nodup := by
  induction xs with
  | nil => simp [firstUniques]
  | cons c rest ih =>
      cases c with
      | none => simpa [firstUniques] using ih
      | some w =>
          simp only [firstUniques, List.nodup_cons]
          refine ⟨?_, ih.erase w⟩
          intro hmem
          exact ((ih.mem_erase_iff).mp hmem).1 rfl

theorem insertByCount_perm {α} (x : α × Nat) (l : List (α × Nat)) :
    (insertByCount x l).Perm (x :: l) := by
  induction l with
  | nil => exact List.Perm.refl _
  | cons y ys ih =>
      simp only [insertByCount]
      split
      · exact (ih.cons y).trans (List.Perm.swap x y ys)
      · exact List.Perm.refl _

theorem sortByCountDesc_perm {α} (l : List (α × Nat)) : (sortByCountDesc l).Perm l := by
  induction l with
  | nil => exact List.Perm.refl _
  | cons x xs ih =>
      simpa [sortByCountDesc] using (insertByCount_perm x (sortByCountDesc xs)).trans (ih.cons x)

theorem pairwise_insertByCount {α} {x : α × Nat} {l : List (α × Nat)}
    (h : l.Pairwise (fun a b => b.2 ≤ a.2)) :
    (insertByCount x l).Pairwise (fun a b => b.2 ≤ a.2) := by
  induction l with
  | nil => simp [insertByCount]
  | cons y ys ih =>
      rcases List.pairwise_cons.mp h with ⟨hy, hys⟩
      simp only [insertByCount]
      split
      · rename_i hlt
        refine List.pairwise_cons.mpr ⟨?_, ih hys⟩
        intro z hz
        rcases List.mem_cons.mp ((insertByCount_perm x ys).mem_iff.mp hz) with hzx | hzy
        · subst hzx; exact Nat.le_of_lt hlt
        · exact hy z hzy
      · rename_i hge
        refine List.pairwise_cons.mpr ⟨?_, h⟩
        intro z hz
        rcases List.mem_cons.mp hz with hzy | hzys
        · subst hzy; exact Nat.le_of_not_lt hge
        · exact Nat.le_trans (hy z hzys) (Nat.le_of_not_lt hge)

theorem sortByCountDesc_pairwise {α} (l : List (α × Nat)) :
    (sortByCountDesc l).Pairwise (fun a b => b.2 ≤ a.2) := by
  induction l with
  | nil => simp [sortByCountDesc]
  | cons x xs ih => exact pairwise_insertByCount ih

/-- The insertion point of `x` lies before every entry of equal count, so
filtering by any fixed count commutes with insertion. -/
theorem filter_insertByCount {α} (c : Nat) (x : α × Nat) (l : List (α × Nat)) :
    (insertByCount x l).filter (fun p => p.2 == c) =
      if x.2 = c then x :: l.filter (fun p => p.2 == c)
      else l.filter (fun p => p.2 == c) := by
  induction l with
  | nil =>
      by_cases hx : x.2 = c <;> simp [insertByCount, List.filter_cons, beq_iff_eq, hx]
  | cons y ys ih =>
      simp only [insertByCount]
      split
      · rename_i hlt
        by_cases hx : x.2 = c
        · have hy : ¬ y.2 = c := by omega
          simp [List.filter_cons, hx, hy, ih]
        · by_cases hy : y.2 = c <;> simp [List.filter_cons, hx, hy, ih]
      · by_cases hx : x.2 = c <;> simp [List.filter_cons, hx]

/-- Stability: sorting by count descending preserves, within each count
class, the original (first-occurrence) order. -/
theorem filter_sortByCountDesc {α} (c : Nat) (l : List (α × Nat)) :
    (sortByCountDesc l).filter (fun p => p.2 == c) = l.filter (fun p => p.2 == c) := by
  induction l with
  | nil => rfl
  | cons x xs ih =>
      rw [sortByCountDesc, filter_insertByCount]
      by_cases hx : x.2 = c <;> simp [List.filter_cons, hx, ih]

theorem pairwise_take_drop {α} {R : α → α → Prop} {l : List α} (h : l.Pairwise R) (n : Nat) :
    ∀ a ∈ l.take n, ∀ b ∈ l.drop n, R a b := by
  have hsplit : l.take n ++ l.drop n = l := List.take_append_drop n l
  have h2 : (l.take n ++ l.drop n).Pairwise R := by rw [hsplit]; exact h
  exact (List.pairwise_append.mp h2).2.2

theorem roundHalfEven_intCast (m : Int) : roundHalfEven (m : ℚ) = m := by
  simp [roundHalfEven, Int.floor_intCast]

/-- C5: for every column of every dataset, the profile's completeness is
round(100 * non_missing_count / total_row_count, 1) and its uniqueness is
round(100 * unique_value_count / total_row_count, 1), both defined as 100
when total_row_count is 0. -/
theorem profile_completeness_uniqueness (df : Df) (nm : String) (s : Series)
    (h : (nm, s) ∈ df.columns) :
    (nm, profileColumn df.nrows s) ∈ (get_profiling_data df).columns ∧
    (profileColumn df.nrows s).completeness =
      (if df.nrows = 0 then 100 else roundTo1 (100 * (seriesCount s : ℚ) / (df.nrows : ℚ))) ∧
    (profileColumn df.nrows s).uniqueness =
      (if df.nrows = 0 then 100 else roundTo1 (100 * (seriesNunique s : ℚ) / (df.nrows : ℚ))) ∧
    (∀ m : Int, roundTo1 ((m : ℚ) / 10) = (m : ℚ) / 10) := by
  refine ⟨?_, ?_, ?_, ?_⟩
  · have hm := List.mem_map_of_mem (fun c => (c.1, profileColumn df.nrows c.2)) h
    simpa [get_profiling_data] using hm
  · simp only [profileColumn]
    rcases Nat.eq_zero_or_pos df.nrows with h0 | hpos
    · simp [h0]
    · rw [if_pos hpos, if_neg (Nat.pos_iff_ne_zero.mp hpos)]
      congr 1
      ring
  · simp only [profileColumn]
    rcases Nat.eq_zero_or_pos df.nrows with h0 | hpos
    · simp [h0]
    · rw [if_pos hpos, if_neg (Nat.pos_iff_ne_zero.mp hpos)]
      congr 1
      ring
  · intro m
    have h10 : (m : ℚ) / 10 * 10 = (m : ℚ) := div_mul_cancel₀ _ (by norm_num)
    simp only [roundTo1, h10, roundHalfEven_intCast]

/-- C5 witness: `profile_completeness_uniqueness` at the one-column
dataset `c5df`. -/
theorem profile_completeness_uniqueness_witness :
    ("w5", profileColumn c5df.nrows (loadColumn [Raw.intv 4])) ∈
        (get_profiling_data c5df).columns ∧
    (profileColumn c5df.nrows (loadColumn [Raw.intv 4])).completeness =
      (if c5df.nrows = 0 then 100
       else roundTo1 (100 * (seriesCount (loadColumn [Raw.intv 4]) : ℚ) / (c5df.nrows : ℚ))) ∧
    (profileColumn c5df.nrows (loadColumn [Raw.intv 4])).uniqueness =
      (if c5df.nrows = 0 then 100
       else roundTo1 (100 * (seriesNunique (loadColumn [Raw.intv 4]) : ℚ) / (c5df.nrows : ℚ))) ∧
    roundTo1 (((750 : Int) : ℚ) / 10) = ((750 : Int) : ℚ) / 10 :=
  ⟨(profile_completeness_uniqueness c5df "w5" (loadColumn [Raw.intv 4]) (by decide)).1,
   (profile_completeness_uniqueness c5df "w5" (loadColumn [Raw.intv 4]) (by decide)).2.1,
   (profile_completeness_uniqueness c5df "w5" (loadColumn [Raw.intv 4]) (by decide)).2.2.1,
   (profile_completeness_uniqueness c5df "w5" (loadColumn [Raw.intv 4]) (by decide)).2.2.2 750⟩

/-- C8: for every input file with an accepted extension whose parse step
fails, `import_dataset` returns a 500 error carrying the parse failure
and leaves the database state unchanged: no dataset row, no column rows,
and the response carries no profile. -/
theorem import_dataset_load_error (st : DbState) (did fn : String) (size : Nat) (e : String)
    (h1 : fn ≠ "") (h2 : allowed_file fn = true) :
    import_dataset st did fn size (Except.error e) = (st, ImportResponse.err 500 e) := by
  simp [import_dataset, h1, h2]

/-- C8 witness: `import_dataset_load_error` on a populated database and
the file "data.csv" whose load fails. -/
theorem import_dataset_load_error_witness :
    import_dataset c8Db "id1" "data.csv" 5 (Except.error "load failed") =
      (c8Db, ImportResponse.err 500 "load failed") :=
  import_dataset_load_error c8Db "id1" "data.csv" 5 "load failed" (by decide) (by decide)

/-- C9: profiling is a deterministic pure function of the in-memory
dataset — two runs on the same dataset produce equal profiles and
byte-identical serializations (including `top_values` entry order, which
`profileStr` serializes in sequence). -/
theorem profiling_deterministic (d1 d2 : Df) (h : d1 = d2) :
    get_profiling_data d1 = get_profiling_data d2 ∧
    profileStr (get_profiling_data d1) = profileStr (get_profiling_data d2) := by
  subst h
  exact ⟨rfl, rfl⟩

/-- C9 witness: `profiling_deterministic` at `c9df`. -/
theorem profiling_deterministic_witness :
    get_profiling_data c9df = get_profiling_data c9df ∧
    profileStr (get_profiling_data c9df) = profileStr (get_profiling_data c9df) :=
  profiling_deterministic c9df c9df rfl

/-- C10: for an all-missing object-dtype (VARCHAR) column,
`get_profiling_data` emits a record holding only type, completeness and
uniqueness: the min/max keys are absent (they exist only on the numeric
branch) and the top_values key is absent as well, rather than present
and empty or null. -/
theorem varchar_all_missing_profile_shape (total : Nat) (xs : List (Option String))
    (h : xs.all (fun c => c.isNone) = true) :
    (profileColumn total (.strs xs)).type = "VARCHAR" ∧
    (profileColumn total (.strs xs)).min = none ∧
    (profileColumn total (.strs xs)).max = none ∧
    (profileColumn total (.strs xs)).top_values = none := by
  simp [profileColumn, dtypeName, seriesIsnullAll, h]

/-- C10 witness: `varchar_all_missing_profile_shape` at the two-cell
all-missing column. -/
theorem varchar_all_missing_profile_shape_witness :
    (profileColumn 2 (.strs [none, none])).type = "VARCHAR" ∧
    (profileColumn 2 (.strs [none, none])).min = none ∧
    (profileColumn 2 (.strs [none, none])).max = none ∧
    (profileColumn 2 (.strs [none, none])).top_values = none :=
  varchar_all_missing_profile_shape 2 [none, none] (by decide)

/-! ## Claim theorems -/

/-- C1: the claim describes `create_version` producing a complete new
graph for a source model with 2 entities, 3 attributes, and 1
relationship carrying 2 attribute mappings.  The code instead raises
`NameError` at the first attribute-mapping copy
(data_model_service.py line 285 references `RelationshipAttributeMapping`,
a name never imported or defined in the module — the ORM class is
`RelationshipAttribute`), so the operation aborts before commit and no
new version is produced. -/
theorem create_version_mapping_name_error :
    c1Graph.entities.length = 2 ∧
    (c1Graph.entities.map (fun e => e.2.length)).sum = 3 ∧
    c1Graph.relationships.length = 1 ∧
    (c1Graph.relationships.map (fun r => r.2.length)).sum = 2 ∧
    create_version c1Graph 3 100 = Except.error nameErrorRAM := by decide

/-- C7 counterexample: the claim allows exactly four scalar fields to
change (id, parent_model_id, version, is_latest_version), so it requires
the new model's `owner_id` to equal the source's; but for a source owned
by user 1 and a version requested by user 2, `create_version` succeeds
and sets the new model's `owner_id` to 2. -/
theorem create_version_owner_counterexample :
    (create_version c7Graph 2 100).toOption.map (fun r => r.newModel.owner_id) = some 2 ∧
    c7Graph.model.owner_id = 1 ∧ (2 : Nat) ≠ 1 := by decide

/-- C7 amended: whenever `create_version` succeeds, the new DataModel
carries the same value as the source for every scalar field except
exactly five: id (fresh), parent_model_id (the source's id), version
(incremented), is_latest_version (true on the copy, false on the
source), and owner_id (set to the requesting user, data_model_service.py
line 191). -/
theorem create_version_field_copy (g : ModelGraph) (user fresh : Nat) (r : CloneResult)
    (h : create_version g user fresh = Except.ok r) :
    r.newModel.name = g.model.name ∧
    r.newModel.description = g.model.description ∧
    r.newModel.model_type = g.model.model_type ∧
    r.newModel.project_id = g.model.project_id ∧
    r.newModel.database_dialect = g.model.database_dialect ∧
    r.newModel.layout_data = g.model.layout_data ∧
    r.newModel.metadata = g.model.metadata ∧
    r.newModel.tags = g.model.tags ∧
    r.newModel.id = fresh ∧
    r.newModel.parent_model_id = some g.model.id ∧
    r.newModel.version = some (_increment_version g.model.version) ∧
    r.newModel.is_latest_version = true ∧
    r.newModel.owner_id = user ∧
    r.sourceModel = { g.model with is_latest_version := false } := by
  simp only [create_version] at h
  split at h
  · exact absurd h (by simp)
  · injection h with h2
    subst h2
    exact ⟨rfl, rfl, rfl, rfl, rfl, rfl, rfl, rfl, rfl, rfl, rfl, rfl, rfl, rfl⟩

/-- C2 counterexample: the claim says the column [1, 2, 2, null] is
classified INTEGER with min "1", max "2" and mean 1.5; the loaded column
has dtype float64 (pandas cannot hold a missing value in an int64
column), so the code reports FLOAT, min "1.0", max "2.0", and the mean of
the three non-missing values is 5/3, not 3/2. -/
theorem profile_int_null_column_counterexample :
    (infer_schema c2df).map (fun c => (c.data_type, c.min_value, c.max_value)) =
      [("FLOAT", some "1.0", some "2.0")] ∧
    "FLOAT" ≠ "INTEGER" ∧ (some "1.0" : Option String) ≠ some "1" ∧
    (infer_schema c2df).map (fun c => c.avg_value) = [some (5/3)] ∧ (5 : ℚ)/3 ≠ 3/2 := by
  have h : loadColumn c2raw = .floats [some 1, some 2, some 2, none] := by decide
  refine ⟨by decide, by decide, by decide, ?_, by norm_num⟩
  show [(infer_schemaCol "col" (loadColumn c2raw)).avg_value] = [some (5/3)]
  rw [h]
  simp only [infer_schemaCol, seriesMean, dtypeName, seriesIsnullAll]
  norm_num [listSumQ, List.filterMap_cons, List.filterMap_nil]

/-- C2 amended: for the column [1, 2, 2, null] the inferencer reports
type FLOAT (pandas loads an integer column containing a missing value as
float64), nullable true, missing_count 1, unique_value_count 2,
min "1.0", max "2.0", mean 5/3 (the arithmetic mean of 1, 2, 2 — not
1.5), completeness 75.0 and uniqueness 50.0. -/
theorem profile_int_null_column :
    (infer_schema c2df).map (fun c => (c.name, c.data_type, c.nullable)) =
      [("col", "FLOAT", true)] ∧
    (infer_schema c2df).map (fun c => (c.unique_values, c.missing_count)) = [(some 2, 1)] ∧
    (infer_schema c2df).map (fun c => (c.min_value, c.max_value)) =
      [(some "1.0", some "2.0")] ∧
    (infer_schema c2df).map (fun c => c.avg_value) = [some (5/3)] ∧
    (get_profiling_data c2df).columns.map (fun c => (c.1, c.2.type, c.2.min, c.2.max)) =
      [("col", "FLOAT", some (some "1.0"), some (some "2.0"))] ∧
    (get_profiling_data c2df).columns.map (fun c => c.2.completeness) = [75] ∧
    (get_profiling_data c2df).columns.map (fun c => c.2.uniqueness) = [50] := by
  have h : loadColumn c2raw = .floats [some 1, some 2, some 2, none] := by decide
  have hc : seriesCount (loadColumn c2raw) = 3 := by decide
  have hu : seriesNunique (loadColumn c2raw) = 2 := by decide
  refine ⟨by decide, by decide, by decide, ?_, by decide, ?_, ?_⟩
  · show [(infer_schemaCol "col" (loadColumn c2raw)).avg_value] = [some (5/3)]
    rw [h]
    simp only [infer_schemaCol, seriesMean, dtypeName, seriesIsnullAll]
    norm_num [listSumQ, List.filterMap_cons, List.filterMap_nil]
  · show [(profileColumn 4 (loadColumn c2raw)).completeness] = [75]
    simp only [profileColumn, hc]
    norm_num [roundTo1, roundHalfEven]
  · show [(profileColumn 4 (loadColumn c2raw)).uniqueness] = [50]
    simp only [profileColumn, hu]
    norm_num [roundTo1, roundHalfEven]

/-- C3 counterexample: an all-missing column loads as a float64 NaN
column, so the code classifies it FLOAT, not VARCHAR. -/
theorem all_missing_column_counterexample :
    (infer_schemaCol "c" (loadColumn c3raw)).data_type = "FLOAT" ∧
    "FLOAT" ≠ "VARCHAR" := by decide

/-- C3 amended: every nonempty column whose values are all missing is
classified FLOAT (pandas represents it as a float64 NaN column) with
nullable true, min, max and mean all None, unique_value_count 0, and
missing_count equal to the column length. -/
theorem all_missing_column_stats (name : String) (raws : List Raw)
    (hne : raws ≠ []) (hall : raws.all Raw.isMissing = true) :
    (infer_schemaCol name (loadColumn raws)).data_type = "FLOAT" ∧
    (infer_schemaCol name (loadColumn raws)).nullable = true ∧
    (infer_schemaCol name (loadColumn raws)).min_value = none ∧
    (infer_schemaCol name (loadColumn raws)).max_value = none ∧
    (infer_schemaCol name (loadColumn raws)).avg_value = none ∧
    (infer_schemaCol name (loadColumn raws)).unique_values = some 0 ∧
    (infer_schemaCol name (loadColumn raws)).missing_count = raws.length := by
  have hmem : ∀ x ∈ raws, x = Raw.missing := by
    intro x hx
    have h := List.all_eq_true.mp hall x hx
    cases x with
    | missing => rfl
    | intv n => simp [Raw.isMissing] at h
    | floatv q => simp [Raw.isMissing] at h
    | strv s => simp [Raw.isMissing] at h
  have hload : loadColumn raws = Series.floats (raws.map toFloatCell) := by
    have h1 : ¬(raws ≠ [] ∧ raws.all Raw.isInt = true) := by
      rintro ⟨-, h2⟩
      obtain ⟨y, ys, rfl⟩ := List.exists_cons_of_ne_nil hne
      have hy := hmem y (List.mem_cons_self y ys)
      subst hy
      have := List.all_eq_true.mp h2 Raw.missing (List.mem_cons_self _ _)
      simp [Raw.isInt] at this
    have h2 : raws ≠ [] ∧ raws.all (fun c => c.isMissing || c.isNumeric) = true :=
      ⟨hne, List.all_eq_true.mpr (fun x hx => by rw [hmem x hx]; rfl)⟩
    simp only [loadColumn, if_neg h1, if_pos h2]
  have hnone : ∀ c ∈ raws.map toFloatCell, c = none := by
    intro c hc
    obtain ⟨x, hx, rfl⟩ := List.mem_map.mp hc
    rw [hmem x hx]; rfl
  have hallnone : (raws.map toFloatCell).all (fun c => c.isNone) = true :=
    List.all_eq_true.mpr (fun c hc => by rw [hnone c hc]; rfl)
  have hfm : (raws.map toFloatCell).filterMap id = [] := by
    rw [List.filterMap_eq_nil_iff]
    intro c hc; rw [hnone c hc]; rfl
  have hfilter : (raws.map toFloatCell).filter (fun c => c.isNone) = raws.map toFloatCell := by
    rw [List.filter_eq_self]
    intro c hc; rw [hnone c hc]; rfl
  have hany : (raws.map toFloatCell).any (fun c => c.isNone) = true := by
    obtain ⟨y, ys, rfl⟩ := List.exists_cons_of_ne_nil hne
    have hy := hmem y (List.mem_cons_self y ys)
    subst hy
    simp [toFloatCell]
  rw [hload]
  simp only [infer_schemaCol, dtypeName, seriesIsnullAny, seriesIsnullAll, seriesNunique,
    seriesMissing, hallnone, hany, hfm, hfilter, List.length_map, List.dedup_nil,
    List.length_nil]
  norm_num

/-- C3 witness: `all_missing_column_stats` at the one-cell column
[missing]. -/
theorem all_missing_column_stats_witness :
    (infer_schemaCol "w" (loadColumn [Raw.missing])).data_type = "FLOAT" ∧
    (infer_schemaCol "w" (loadColumn [Raw.missing])).nullable = true ∧
    (infer_schemaCol "w" (loadColumn [Raw.missing])).min_value = none ∧
    (infer_schemaCol "w" (loadColumn [Raw.missing])).max_value = none ∧
    (infer_schemaCol "w" (loadColumn [Raw.missing])).avg_value = none ∧
    (infer_schemaCol "w" (loadColumn [Raw.missing])).unique_values = some 0 ∧
    (infer_schemaCol "w" (loadColumn [Raw.missing])).missing_count = [Raw.missing].length :=
  all_missing_column_stats "w" [Raw.missing] (by decide) (by decide)

/-- C7 witness: `create_version_field_copy` applied to the concrete run
`create_version c7Graph 2 100 = .ok c7Result`. -/
theorem create_version_field_copy_witness :
    c7Result.newModel.name = c7Graph.model.name ∧
    c7Result.newModel.description = c7Graph.model.description ∧
    c7Result.newModel.model_type = c7Graph.model.model_type ∧
    c7Result.newModel.project_id = c7Graph.model.project_id ∧
    c7Result.newModel.database_dialect = c7Graph.model.database_dialect ∧
    c7Result.newModel.layout_data = c7Graph.model.layout_data ∧
    c7Result.newModel.metadata = c7Graph.model.metadata ∧
    c7Result.newModel.tags = c7Graph.model.tags ∧
    c7Result.newModel.id = 100 ∧
    c7Result.newModel.parent_model_id = some c7Graph.model.id ∧
    c7Result.newModel.version = some (_increment_version c7Graph.model.version) ∧
    c7Result.newModel.is_latest_version = true ∧
    c7Result.newModel.owner_id = 2 ∧
    c7Result.sourceModel = { c7Graph.model with is_latest_version := false } :=
  create_version_field_copy c7Graph 2 100 c7Result (by decide)

end PTT
